import Mathlib

/-!
Verification of the friend-request / notification core of the SweatCheck
application, as implemented in `src/services/db_service.py` and
`src/services/notification_service.py`.

The relational store is shallowly embedded: each table is a list of rows,
SQL `SERIAL` columns are modelled by explicit next-id counters, and
`CURRENT_TIMESTAMP` by an abstract tick `now` carried in the store.
`fetchone` on a query becomes `List.find?`, `SELECT ... WHERE` becomes
`List.filter`, an `UPDATE ... WHERE` becomes `List.map` guarded by the
`WHERE` predicate, and `INSERT` appends a row.  The SQLAlchemy session
wrapper `get_session` (commit on normal exit, rollback and re-raise on an
exception) is modelled explicitly by `run_session` over bodies returning
`Except`.
-/

namespace SweatCheck

/-- Row of the `users` table (only the columns the verified core reads). -/
structure UserRow where
  id : Nat
  nick : String
  email : String
deriving Repr, DecidableEq

/-- Row of the `friends` table: the directional pair `(user_id, friend_id)`. -/
structure FriendRow where
  user_id : Nat
  friend_id : Nat
deriving Repr, DecidableEq

/-- Row of the `friend_requests` table.  `status` is TEXT in the schema,
so it is a `String` here; `responded_at` is nullable. -/
structure FriendRequestRow where
  id : Nat
  requester_id : Nat
  addressee_id : Nat
  status : String
  created_at : Nat
  responded_at : Option Nat
deriving Repr, DecidableEq

/-- The JSONB payload of a notification, restricted to the keys the code
ever writes or reads: `from_user_id`, `by_user_id`, `message`.  A missing
key is `none` (Python `payload.get(k)` returning `None`). -/
structure Payload where
  from_user_id : Option Nat := none
  by_user_id : Option Nat := none
  message : Option String := none
deriving Repr, DecidableEq

/-- Row of the `notifications` table.  `created_at` is a nullable
TIMESTAMP column, hence `Option Nat`. -/
structure NotificationRow where
  id : Nat
  user_id : Nat
  type : String
  payload : Payload
  is_read : Bool
  created_at : Option Nat
deriving Repr, DecidableEq

/-- The relational store: one list per table, the `SERIAL` counters, and
the current clock tick used for `CURRENT_TIMESTAMP`. -/
structure Store where
  users : List UserRow
  friends : List FriendRow
  friend_requests : List FriendRequestRow
  notifications : List NotificationRow
  next_request_id : Nat
  next_notification_id : Nat
  now : Nat
deriving Repr, DecidableEq

/-- Characters Python `str.strip()` removes: space, tab, newline,
carriage return, vertical tab, form feed. -/
def isPySpace (c : Char) : Bool :=
  c == ' ' || c == '\t' || c == '\n' || c == '\r' ||
    c == Char.ofNat 11 || c == Char.ofNat 12

/-- Python `str.strip()`: drop leading and trailing whitespace. -/
def pyStrip (s : String) : String :=
  String.mk (((s.toList.dropWhile isPySpace).reverse.dropWhile isPySpace).reverse)

/-- Python `str.lower()` (ASCII fragment, which covers the emails the
store compares). -/
def pyLower (s : String) : String :=
  String.mk (s.toList.map Char.toLower)

/-- Embeds `(addressee_email or "").strip().lower()`: a `None` argument
becomes `""` before stripping and lowercasing. -/
def normalize_email (e : Option String) : String :=
  pyLower (pyStrip (e.getD ""))

/-- Embeds `SELECT id, nick FROM users WHERE email = :e` + `fetchone`. -/
def lookup_user_by_email (st : Store) (e : String) : Option UserRow :=
  st.users.find? (fun u => u.email == e)

/-- Embeds `DatabaseService.get_user_by_id`. -/
def get_user_by_id (st : Store) (uid : Nat) : Option UserRow :=
  st.users.find? (fun u => u.id == uid)

/-- Embeds `SELECT 1 FROM friends WHERE user_id=:u AND friend_id=:f`
followed by `fetchone` being truthy. -/
def friends_row_exists (st : Store) (u f : Nat) : Bool :=
  st.friends.any (fun r => r.user_id == u && r.friend_id == f)

/-- The spec's `are_friends(a, b)`: the directional row `(a, b)` exists. -/
def are_friends (st : Store) (a b : Nat) : Bool :=
  friends_row_exists st a b

/-- Embeds `INSERT INTO friends(user_id, friend_id) VALUES (:u,:f)
ON CONFLICT DO NOTHING`. -/
def insert_friend_if_absent (st : Store) (u f : Nat) : Store :=
  if friends_row_exists st u f then st
  else { st with friends := st.friends ++ [⟨u, f⟩] }

/-- Embeds `INSERT INTO notifications(user_id, type, payload) VALUES ...`:
`is_read` defaults to false and `created_at` to `CURRENT_TIMESTAMP`. -/
def insert_notification (st : Store) (uid : Nat) (ty : String) (pl : Payload) : Store :=
  { st with
    notifications := st.notifications ++
      [⟨st.next_notification_id, uid, ty, pl, false, some st.now⟩],
    next_notification_id := st.next_notification_id + 1 }

/-- Embeds `SELECT ... FROM friend_requests WHERE id=:id` + `fetchone`. -/
def lookup_request (st : Store) (rid : Nat) : Option FriendRequestRow :=
  st.friend_requests.find? (fun r => r.id == rid)

/-- Whether a `friend_requests` row for the ordered pair exists (the
`ON CONFLICT (requester_id, addressee_id)` trigger condition). -/
def request_pair_exists (st : Store) (r a : Nat) : Bool :=
  st.friend_requests.any (fun q => q.requester_id == r && q.addressee_id == a)

/-- Embeds `INSERT INTO friend_requests(requester_id, addressee_id, status)
VALUES (:r, :a, 'pending') ON CONFLICT (requester_id, addressee_id)
DO UPDATE SET status='pending', created_at=CURRENT_TIMESTAMP,
responded_at=NULL`. -/
def upsert_pending_request (st : Store) (r a : Nat) : Store :=
  if request_pair_exists st r a then
    { st with friend_requests := st.friend_requests.map (fun q =>
        if q.requester_id == r && q.addressee_id == a then
          { q with status := "pending", created_at := st.now, responded_at := none }
        else q) }
  else
    { st with
      friend_requests := st.friend_requests ++
        [⟨st.next_request_id, r, a, "pending", st.now, none⟩],
      next_request_id := st.next_request_id + 1 }

/-- Embeds `DatabaseService.send_friend_request` line by line: normalize
the email, resolve the addressee, reject self-requests and existing
friendships, upsert the pending request, insert the `friend_request`
notification. -/
def send_friend_request (st : Store) (requester_id : Nat)
    (addressee_email : Option String) : Store × Bool × String :=
  let e := normalize_email addressee_email
  if e == "" then (st, false, "Podaj email.")
  else
    match lookup_user_by_email st e with
    | none => (st, false, "Nie znaleziono użytkownika o takim emailu.")
    | some addressee =>
      if addressee.id == requester_id then
        (st, false, "Nie możesz zaprosić siebie.")
      else if friends_row_exists st requester_id addressee.id then
        (st, false, "Jesteście już znajomymi.")
      else
        let st1 := upsert_pending_request st requester_id addressee.id
        let st2 := insert_notification st1 addressee.id "friend_request"
          { from_user_id := some requester_id }
        (st2, true, "Wysłano zaproszenie do: " ++ addressee.nick)

/-- Embeds `UPDATE friend_requests SET status=..., responded_at=
CURRENT_TIMESTAMP WHERE id=:id`. -/
def set_request_status (st : Store) (rid : Nat) (newStatus : String) : Store :=
  { st with friend_requests := st.friend_requests.map (fun q =>
      if q.id == rid then
        { q with status := newStatus, responded_at := some st.now }
      else q) }

/-- Embeds `DatabaseService.accept_request`: guard chain (missing row,
wrong addressee, non-pending status), then both friendship inserts, the
status update and the `friend_accept` notification. -/
def accept_request (st : Store) (user_id request_id : Nat) : Store × Bool × String :=
  match lookup_request st request_id with
  | none => (st, false, "Nie znaleziono zaproszenia.")
  | some req =>
    if req.addressee_id != user_id then
      (st, false, "To nie jest Twoje zaproszenie.")
    else if req.status != "pending" then
      (st, false, "To zaproszenie nie jest już aktywne.")
    else
      let requester_id := req.requester_id
      let st1 := insert_friend_if_absent st user_id requester_id
      let st2 := insert_friend_if_absent st1 requester_id user_id
      let st3 := set_request_status st2 request_id "accepted"
      let st4 := insert_notification st3 requester_id "friend_accept"
        { by_user_id := some user_id }
      (st4, true, "Zaproszenie zaakceptowane.")

/-- Embeds `DatabaseService.decline_request`: same guard chain as accept,
then the status update and the `friend_decline` notification; the
`friends` table is not touched. -/
def decline_request (st : Store) (user_id request_id : Nat) : Store × Bool × String :=
  match lookup_request st request_id with
  | none => (st, false, "Nie znaleziono zaproszenia.")
  | some req =>
    if req.addressee_id != user_id then
      (st, false, "To nie jest Twoje zaproszenie.")
    else if req.status != "pending" then
      (st, false, "To zaproszenie nie jest już aktywne.")
    else
      let requester_id := req.requester_id
      let st1 := set_request_status st request_id "declined"
      let st2 := insert_notification st1 requester_id "friend_decline"
        { by_user_id := some user_id }
      (st2, true, "Zaproszenie odrzucone.")

/-- Embeds `DatabaseService.mark_all_notifications_read`:
`UPDATE notifications SET is_read=true WHERE user_id=:u AND
is_read=false`.  The Python function has no `return` statement, so its
value is `None`; the second component models that returned value. -/
def mark_all_notifications_read (st : Store) (user_id : Nat) : Store × Option Nat :=
  ({ st with notifications := st.notifications.map (fun n =>
      if n.user_id == user_id && !n.is_read then { n with is_read := true } else n) },
   none)

/-- Embeds `DatabaseService.unread_notifications_count`. -/
def unread_notifications_count (st : Store) (user_id : Nat) : Nat :=
  (st.notifications.filter (fun n => n.user_id == user_id && !n.is_read)).length

/-- Embeds `DatabaseService.delete_notification`: select the row with
`id=:nid AND user_id=:uid`; if absent fail, otherwise delete exactly the
rows matching that same condition. -/
def delete_notification (st : Store) (user_id notification_id : Nat) :
    Store × Bool × String :=
  if st.notifications.any (fun n => n.id == notification_id && n.user_id == user_id) then
    ({ st with notifications :=
        st.notifications.filter (fun n => !(n.id == notification_id && n.user_id == user_id)) },
     true, "Usunięto powiadomienie.")
  else (st, false, "Nie znaleziono powiadomienia.")

/-- Result of the SQLAlchemy `get_session` context manager around a body
that may raise: on normal exit the session commits and the body's store
becomes visible together with the returned `(ok, message)` pair; on an
exception the session rolls back, the committed store is unchanged, and
the exception propagates (modelled as `none`). -/
def run_session (st : Store)
    (body : Store → Except String (Store × Bool × String)) :
    Store × Option (Bool × String) :=
  match body st with
  | Except.ok (st2, ok, msg) => (st2, some (ok, msg))
  | Except.error _ => (st, none)

/-- Body of `accept_request` as executed inside `get_session`, with a
fault-injection switch: when `fault` is true an exception is raised at
the point between the friendship/status mutations and the
`friend_accept` notification insert. -/
def accept_request_body (user_id request_id : Nat) (fault : Bool) (st : Store) :
    Except String (Store × Bool × String) :=
  match lookup_request st request_id with
  | none => Except.ok (st, false, "Nie znaleziono zaproszenia.")
  | some req =>
    if req.addressee_id != user_id then
      Except.ok (st, false, "To nie jest Twoje zaproszenie.")
    else if req.status != "pending" then
      Except.ok (st, false, "To zaproszenie nie jest już aktywne.")
    else
      let requester_id := req.requester_id
      let st1 := insert_friend_if_absent st user_id requester_id
      let st2 := insert_friend_if_absent st1 requester_id user_id
      let st3 := set_request_status st2 request_id "accepted"
      if fault then Except.error "injected store fault"
      else
        let st4 := insert_notification st3 requester_id "friend_accept"
          { by_user_id := some user_id }
        Except.ok (st4, true, "Zaproszenie zaakceptowane.")

/-- The `accept_request` operation as one unit of work under
`run_session`, with the fault-injection switch. -/
def accept_request_tx (st : Store) (user_id request_id : Nat) (fault : Bool) :
    Store × Option (Bool × String) :=
  run_session st (accept_request_body user_id request_id fault)

/-- Two-digit zero padding used by the timestamp formatter. -/
def pad2 (n : Nat) : String :=
  if n < 10 then "0" ++ toString n else toString n

/-- Gregorian civil date from a count of days since 1970-01-01
(days-to-civil conversion for non-negative day counts). -/
def civil_from_days (z0 : Nat) : Nat × Nat × Nat :=
  let z := z0 + 719468
  let era := z / 146097
  let doe := z % 146097
  let yoe := (doe - doe / 1460 + doe / 36524 - doe / 146096) / 365
  let y := yoe + era * 400
  let doy := doe - (365 * yoe + yoe / 4 - yoe / 100)
  let mp := (5 * doy + 2) / 153
  let d := doy - (153 * mp + 2) / 5 + 1
  let m := if mp < 10 then mp + 3 else mp - 9
  (if m ≤ 2 then y + 1 else y, m, d)

/-- The `created_at.strftime("%Y-%m-%d %H:%M")` rendering of a timestamp
taken as seconds since the epoch. -/
def strftime_date_hm (t : Nat) : String :=
  let days := t / 86400
  let secs := t % 86400
  let c := civil_from_days days
  toString c.1 ++ "-" ++ pad2 c.2.1 ++ "-" ++ pad2 c.2.2 ++ " " ++
    pad2 (secs / 3600) ++ ":" ++ pad2 (secs % 3600 / 60)

/-- Embeds `p["created_at"].strftime(...) if p["created_at"] else ""`:
a NULL timestamp renders as the empty string. -/
def fmt_created_at (c : Option Nat) : String :=
  match c with
  | some t => strftime_date_hm t
  | none => ""

/-- Descending comparison on nullable timestamps as `ORDER BY created_at
DESC` sorts them in PostgreSQL: NULLs first (treated as largest),
otherwise larger timestamps first.  `ts_ge a b` says `a` may precede `b`. -/
def ts_ge (a b : Option Nat) : Bool :=
  match a, b with
  | none, _ => true
  | some _, none => false
  | some x, some y => decide (y ≤ x)

/-- Insertion step of the descending-by-`created_at` sort. -/
def insert_desc (n : NotificationRow) : List NotificationRow → List NotificationRow
  | [] => [n]
  | m :: rest =>
    if ts_ge n.created_at m.created_at then n :: m :: rest
    else m :: insert_desc n rest

/-- Insertion sort realising `ORDER BY created_at DESC`. -/
def sort_desc : List NotificationRow → List NotificationRow
  | [] => []
  | n :: rest => insert_desc n (sort_desc rest)

/-- Embeds `DatabaseService.list_notifications`: the caller's rows,
ordered by `created_at` descending, capped at `limit` (30 at the
presenter's call site). -/
def list_notifications (st : Store) (user_id : Nat) (limit : Nat) :
    List NotificationRow :=
  (sort_desc (st.notifications.filter (fun n => n.user_id == user_id))).take limit

/-- A rendered notification record: the dict `p = dict(n)` built by
`parse_notifications` (the five fetched columns) plus the keys the
presenter may add; a key the branch does not add is `none`. -/
structure ParsedNotification where
  id : Nat
  type : String
  payload : Payload
  is_read : Bool
  created_at : Option Nat
  message : Option String
  user_friendly_type : Option String
  user_friendly_created_at : Option String
deriving Repr, DecidableEq

/-- Embeds `get_user_by_id(x) if x else None`: the lookup is skipped when
the payload id is absent or `0` (Python falsiness). -/
def truthy_lookup (st : Store) (oid : Option Nat) : Option UserRow :=
  match oid with
  | some uid => if uid == 0 then none else get_user_by_id st uid
  | none => none

/-- Embeds one iteration of the loop in
`NotificationService.parse_notifications`: dispatch on `type`, resolve
the referenced user with a fallback, attach message / friendly type /
friendly timestamp per branch.  The final `else` branch of the source
sets only `message`. -/
def render_one (st : Store) (n : NotificationRow) : ParsedNotification :=
  let base : ParsedNotification :=
    { id := n.id, type := n.type, payload := n.payload, is_read := n.is_read,
      created_at := n.created_at, message := none,
      user_friendly_type := none, user_friendly_created_at := none }
  if n.type == "friend_request" then
    { base with
      message := some (match truthy_lookup st n.payload.from_user_id with
        | some u => "Nowe zaproszenie od **" ++ u.nick ++ "**"
        | none => "Nowe zaproszenie"),
      user_friendly_type := some "Zaproszenie do znajomych",
      user_friendly_created_at := some (fmt_created_at n.created_at) }
  else if n.type == "friend_accept" then
    { base with
      message := some (match truthy_lookup st n.payload.by_user_id with
        | some u => "**" ++ u.nick ++ "** zaakceptował(a) Twoje zaproszenie"
        | none => "Ktoś zaakceptował(a) Twoje zaproszenie"),
      user_friendly_type := some "Zaakceptowano zaproszenie",
      user_friendly_created_at := some (fmt_created_at n.created_at) }
  else if n.type == "friend_decline" then
    { base with
      message := some (match truthy_lookup st n.payload.by_user_id with
        | some u => "**" ++ u.nick ++ "** odrzucił(a) Twoje zaproszenie"
        | none => "Ktoś odrzucił(a) Twoje zaproszenie"),
      user_friendly_type := some "Odrzucono zaproszenie",
      user_friendly_created_at := some (fmt_created_at n.created_at) }
  else if n.type == "admin_broadcast" then
    { base with
      message := n.payload.message,
      user_friendly_type := some "Ogłoszenie od adminki",
      user_friendly_created_at := some (fmt_created_at n.created_at) }
  else
    { base with message := some "Nieznany typ powiadomienia" }

/-- Embeds `NotificationService.parse_notifications`: fetch via
`list_notifications` (default limit 30) and render each row in order,
appending to the output list. -/
def parse_notifications (st : Store) (user_id : Nat) : List ParsedNotification :=
  (list_notifications st user_id 30).map (render_one st)

/-- Concrete store with two users and nothing else, used in witnesses. -/
def exStore2 : Store :=
  { users := [⟨1, "Ala", "ala@example.com"⟩, ⟨2, "Basia", "basia@example.com"⟩],
    friends := [], friend_requests := [], notifications := [],
    next_request_id := 1, next_notification_id := 1, now := 100 }

/-- Concrete store with a pending request from user 1 to user 2. -/
def exStorePending : Store :=
  { users := [⟨1, "Ala", "ala@example.com"⟩, ⟨2, "Basia", "basia@example.com"⟩],
    friends := [], friend_requests := [⟨5, 1, 2, "pending", 50, none⟩],
    notifications := [], next_request_id := 6, next_notification_id := 1, now := 100 }

/-- Concrete store with an already-accepted request from user 1 to user 2. -/
def exStoreAccepted : Store :=
  { users := [⟨1, "Ala", "ala@example.com"⟩, ⟨2, "Basia", "basia@example.com"⟩],
    friends := [⟨1, 2⟩, ⟨2, 1⟩], friend_requests := [⟨5, 1, 2, "accepted", 50, some 60⟩],
    notifications := [], next_request_id := 6, next_notification_id := 1, now := 100 }

/-- Concrete store with notifications of two users, one already read. -/
def exStoreMark : Store :=
  { users := [], friends := [], friend_requests := [],
    notifications :=
      [⟨1, 1, "friend_request", { from_user_id := some 2 }, false, some 10⟩,
       ⟨2, 1, "friend_accept", { by_user_id := some 2 }, true, some 11⟩,
       ⟨3, 2, "friend_request", { from_user_id := some 1 }, false, some 12⟩],
    next_request_id := 1, next_notification_id := 4, now := 100 }

/-- Concrete store with a single notification owned by user 2. -/
def exStoreDel : Store :=
  { users := [], friends := [], friend_requests := [],
    notifications := [⟨7, 2, "friend_request", { from_user_id := some 1 }, false, some 10⟩],
    next_request_id := 1, next_notification_id := 8, now := 100 }

/-- Concrete store with a single notification of an unknown type. -/
def exStoreUnknown : Store :=
  { users := [⟨1, "Ala", "ala@example.com"⟩], friends := [], friend_requests := [],
    notifications := [⟨1, 1, "workout_like", {}, false, some 20⟩],
    next_request_id := 1, next_notification_id := 2, now := 100 }

/-- Concrete store for the presenter: user 1 has an unknown-type row and
a `friend_request` row whose `from_user_id` (99) resolves to no user. -/
def exStoreRender : Store :=
  { users := [⟨1, "Ala", "ala@example.com"⟩], friends := [], friend_requests := [],
    notifications :=
      [⟨1, 1, "workout_like", {}, false, some 20⟩,
       ⟨2, 1, "friend_request", { from_user_id := some 99 }, false, some 30⟩],
    next_request_id := 1, next_notification_id := 3, now := 100 }

/-- Concrete store for the presenter: user 1 has a `friend_accept` row
and a `friend_decline` row whose `by_user_id` (77 and 88) resolve to no
user. -/
def exStoreRender2 : Store :=
  { users := [⟨1, "Ala", "ala@example.com"⟩], friends := [], friend_requests := [],
    notifications :=
      [⟨1, 1, "friend_accept", { by_user_id := some 77 }, false, some 20⟩,
       ⟨2, 1, "friend_decline", { by_user_id := some 88 }, false, some 30⟩],
    next_request_id := 1, next_notification_id := 3, now := 100 }

end SweatCheck

namespace SweatCheck

lemma upsert_pending_request_users (st : Store) (r a : Nat) :
    (upsert_pending_request st r a).users = st.users := by
  unfold upsert_pending_request; split <;> rfl

lemma upsert_pending_request_friends (st : Store) (r a : Nat) :
    (upsert_pending_request st r a).friends = st.friends := by
  unfold upsert_pending_request; split <;> rfl

lemma upsert_pending_request_notifications (st : Store) (r a : Nat) :
    (upsert_pending_request st r a).notifications = st.notifications := by
  unfold upsert_pending_request; split <;> rfl

lemma upsert_pending_request_now (st : Store) (r a : Nat) :
    (upsert_pending_request st r a).now = st.now := by
  unfold upsert_pending_request; split <;> rfl

lemma insert_friend_if_absent_users (st : Store) (u f : Nat) :
    (insert_friend_if_absent st u f).users = st.users := by
  unfold insert_friend_if_absent; split <;> rfl

lemma insert_friend_if_absent_requests (st : Store) (u f : Nat) :
    (insert_friend_if_absent st u f).friend_requests = st.friend_requests := by
  unfold insert_friend_if_absent; split <;> rfl

lemma insert_friend_if_absent_notifications (st : Store) (u f : Nat) :
    (insert_friend_if_absent st u f).notifications = st.notifications := by
  unfold insert_friend_if_absent; split <;> rfl

lemma insert_friend_if_absent_next_notification_id (st : Store) (u f : Nat) :
    (insert_friend_if_absent st u f).next_notification_id = st.next_notification_id := by
  unfold insert_friend_if_absent; split <;> rfl

lemma insert_friend_if_absent_now (st : Store) (u f : Nat) :
    (insert_friend_if_absent st u f).now = st.now := by
  unfold insert_friend_if_absent; split <;> rfl

/-- Collapsing the guard chain of `send_friend_request` when every check
passes. -/
lemma send_friend_request_success (st : Store) (a : Nat) (e : Option String)
    (b : UserRow)
    (hne : normalize_email e ≠ "")
    (hb : lookup_user_by_email st (normalize_email e) = some b)
    (hself : b.id ≠ a)
    (hfr : friends_row_exists st a b.id = false) :
    send_friend_request st a e =
      (insert_notification (upsert_pending_request st a b.id) b.id "friend_request"
          { from_user_id := some a },
        true, "Wysłano zaproszenie do: " ++ b.nick) := by
  simp [send_friend_request, hb, hne, hself, hfr]

/-- Collapsing the guard chain of `accept_request` when every check passes. -/
lemma accept_request_success_eq (st : Store) (u rid : Nat)
    (req : FriendRequestRow)
    (hfind : lookup_request st rid = some req)
    (haddr : req.addressee_id = u)
    (hstatus : req.status = "pending") :
    accept_request st u rid =
      (insert_notification
          (set_request_status
            (insert_friend_if_absent (insert_friend_if_absent st u req.requester_id)
              req.requester_id u)
            rid "accepted")
          req.requester_id "friend_accept" { by_user_id := some u },
        true, "Zaproszenie zaakceptowane.") := by
  simp [accept_request, hfind, haddr, hstatus]

/-- Collapsing the guard chain of `decline_request` when every check passes. -/
lemma decline_request_success_eq (st : Store) (u rid : Nat)
    (req : FriendRequestRow)
    (hfind : lookup_request st rid = some req)
    (haddr : req.addressee_id = u)
    (hstatus : req.status = "pending") :
    decline_request st u rid =
      (insert_notification (set_request_status st rid "declined")
          req.requester_id "friend_decline" { by_user_id := some u },
        true, "Zaproszenie odrzucone.") := by
  simp [decline_request, hfind, haddr, hstatus]

/-- When request ids are pairwise distinct (the table's PRIMARY KEY),
`find?` by id returns the unique member carrying that id. -/
lemma find_by_unique_id (l : List FriendRequestRow) (rid : Nat)
    (req : FriendRequestRow)
    (huniq : l.Pairwise (fun q1 q2 => q1.id ≠ q2.id))
    (hmem : req ∈ l) (hid : req.id = rid) :
    l.find? (fun r => r.id == rid) = some req := by
  induction l with
  | nil => cases hmem
  | cons a l ih =>
    rcases List.pairwise_cons.1 huniq with ⟨ha, hl⟩
    rcases List.mem_cons.1 hmem with rfl | hmem
    · have hat : (req.id == rid) = true := by simp [hid]
      rw [List.find?_cons, hat]
    · have hane : (a.id == rid) = false := by
        have hne := ha req hmem
        rw [hid] at hne
        simp [hne]
      rw [List.find?_cons, hane]
      exact ih hl hmem

/-- C2: for accept and decline, with the guards checked in the code's
order: when no request row with the given id exists the operation fails
as NotFound; when the row with that id (unique by primary key) is
addressed to someone else it fails as Forbidden; when it is addressed to
the acting user but no longer pending it fails as InvalidState.  Each
failure returns `(false, message)` with the returned store the input
store itself, so no friendship, request or notification row changes; and
in general, whenever accept or decline reports failure the store is
unchanged. -/
theorem accept_decline_failure_cases (st : Store) (u rid : Nat)
    (huniq : st.friend_requests.Pairwise (fun q1 q2 => q1.id ≠ q2.id)) :
    ((∀ q ∈ st.friend_requests, q.id ≠ rid) →
        accept_request st u rid = (st, false, "Nie znaleziono zaproszenia.") ∧
        decline_request st u rid = (st, false, "Nie znaleziono zaproszenia.")) ∧
    (∀ req ∈ st.friend_requests, req.id = rid → req.addressee_id ≠ u →
        accept_request st u rid = (st, false, "To nie jest Twoje zaproszenie.") ∧
        decline_request st u rid = (st, false, "To nie jest Twoje zaproszenie.")) ∧
    (∀ req ∈ st.friend_requests, req.id = rid → req.addressee_id = u →
        req.status ≠ "pending" →
        accept_request st u rid = (st, false, "To zaproszenie nie jest już aktywne.") ∧
        decline_request st u rid = (st, false, "To zaproszenie nie jest już aktywne.")) ∧
    ((accept_request st u rid).2.1 = false → (accept_request st u rid).1 = st) ∧
    ((decline_request st u rid).2.1 = false → (decline_request st u rid).1 = st) := by
  refine ⟨fun hno => ?_, fun req hmem hid hne => ?_, fun req hmem hid he hs => ?_,
    ?_, ?_⟩
  · have h : lookup_request st rid = none := by
      unfold lookup_request
      rw [List.find?_eq_none]
      intro q hq
      simp [hno q hq]
    constructor <;> simp [accept_request, decline_request, h]
  · have h : lookup_request st rid = some req :=
      find_by_unique_id _ rid req huniq hmem hid
    constructor <;> simp [accept_request, decline_request, h, hne]
  · have h : lookup_request st rid = some req :=
      find_by_unique_id _ rid req huniq hmem hid
    constructor <;> simp [accept_request, decline_request, h, he, hs]
  · cases h : lookup_request st rid with
    | none => intro hf; simp [accept_request, h]
    | some req =>
      by_cases ha : (req.addressee_id != u) = true
      · intro hf; simp [accept_request, h, ha]
      · by_cases hs : (req.status != "pending") = true
        · intro hf; simp [accept_request, h, ha, hs]
        · intro hf
          have ht : (accept_request st u rid).2.1 = true := by
            simp [accept_request, h, ha, hs]
          rw [hf] at ht
          exact absurd ht (by decide)
  · cases h : lookup_request st rid with
    | none => intro hf; simp [decline_request, h]
    | some req =>
      by_cases ha : (req.addressee_id != u) = true
      · intro hf; simp [decline_request, h, ha]
      · by_cases hs : (req.status != "pending") = true
        · intro hf; simp [decline_request, h, ha, hs]
        · intro hf
          have ht : (decline_request st u rid).2.1 = true := by
            simp [decline_request, h, ha, hs]
          rw [hf] at ht
          exact absurd ht (by decide)

/-- Witness for C2 at concrete stores: a missing id, a foreign request,
and an already-accepted request. -/
theorem accept_decline_failure_cases_witness :
    (accept_request exStore2 1 5 = (exStore2, false, "Nie znaleziono zaproszenia.") ∧
      decline_request exStore2 1 5 = (exStore2, false, "Nie znaleziono zaproszenia.")) ∧
    (accept_request exStorePending 1 5 =
        (exStorePending, false, "To nie jest Twoje zaproszenie.") ∧
      decline_request exStorePending 1 5 =
        (exStorePending, false, "To nie jest Twoje zaproszenie.")) ∧
    (accept_request exStoreAccepted 2 5 =
        (exStoreAccepted, false, "To zaproszenie nie jest już aktywne.") ∧
      decline_request exStoreAccepted 2 5 =
        (exStoreAccepted, false, "To zaproszenie nie jest już aktywne.")) :=
  ⟨(accept_decline_failure_cases exStore2 1 5 (by decide)).1 (by decide),
   (accept_decline_failure_cases exStorePending 1 5 (by decide)).2.1
     ⟨5, 1, 2, "pending", 50, none⟩ (by decide) (by decide) (by decide),
   (accept_decline_failure_cases exStoreAccepted 2 5 (by decide)).2.2.1
     ⟨5, 1, 2, "accepted", 50, some 60⟩ (by decide) (by decide) (by decide)
     (by decide)⟩

end SweatCheck

namespace SweatCheck

/-- C4: `send_request` fails with NotFound when the (normalized) email
resolves to no user, with InvalidTarget when the resolved id equals the
requester, and with AlreadyFriends when the friendship row
`(requester_id, addressee_id)` already exists; each failure returns
`(false, message)` with the store untouched, so no FriendRequest row and
no notification is created. -/
theorem send_request_failure_cases (st : Store) (r : Nat) (e : Option String)
    (hne : normalize_email e ≠ "") :
    (lookup_user_by_email st (normalize_email e) = none →
        send_friend_request st r e =
          (st, false, "Nie znaleziono użytkownika o takim emailu.")) ∧
    (∀ a, lookup_user_by_email st (normalize_email e) = some a → a.id = r →
        send_friend_request st r e = (st, false, "Nie możesz zaprosić siebie.")) ∧
    (∀ a, lookup_user_by_email st (normalize_email e) = some a → a.id ≠ r →
        friends_row_exists st r a.id = true →
        send_friend_request st r e = (st, false, "Jesteście już znajomymi.")) := by
  refine ⟨fun h => ?_, fun a h ha => ?_, fun a h ha hf => ?_⟩
  · simp [send_friend_request, h, hne]
  · simp [send_friend_request, h, hne, ha]
  · simp [send_friend_request, h, hne, ha, hf]

/-- Witness for C4: unknown email, self-request, and existing friendship
on concrete stores. -/
theorem send_request_failure_cases_witness :
    send_friend_request exStore2 1 (some "zz@example.com") =
      (exStore2, false, "Nie znaleziono użytkownika o takim emailu.") ∧
    send_friend_request exStore2 1 (some "ala@example.com") =
      (exStore2, false, "Nie możesz zaprosić siebie.") ∧
    send_friend_request exStoreAccepted 1 (some "basia@example.com") =
      (exStoreAccepted, false, "Jesteście już znajomymi.") :=
  ⟨(send_request_failure_cases exStore2 1 (some "zz@example.com") (by decide)).1
      (by decide),
   (send_request_failure_cases exStore2 1 (some "ala@example.com") (by decide)).2.1
      ⟨1, "Ala", "ala@example.com"⟩ (by decide) (by decide),
   (send_request_failure_cases exStoreAccepted 1 (some "basia@example.com")
        (by decide)).2.2
      ⟨2, "Basia", "basia@example.com"⟩ (by decide) (by decide) (by decide)⟩

/-- C10: `send_request` normalizes the addressee email by stripping
whitespace and lowercasing; `None`, empty and whitespace-only inputs
normalize to the empty string and make the operation return
`(false, "Podaj email.")` immediately with the store unchanged (so no
directory query is observable); resolution can only return a stored user
whose email equals the stripped-and-lowercased input. -/
theorem send_request_email_normalization (st : Store) (r : Nat) (e : Option String) :
    (normalize_email e = "" →
        send_friend_request st r e = (st, false, "Podaj email.")) ∧
    normalize_email none = "" ∧
    (∀ s : String, s.toList.all isPySpace = true → normalize_email (some s) = "") ∧
    (∀ u, lookup_user_by_email st (normalize_email e) = some u →
        u.email = pyLower (pyStrip (e.getD ""))) := by
  refine ⟨fun h => ?_, by decide, fun s hs => ?_, fun u hu => ?_⟩
  · simp [send_friend_request, h]
  · have hdrop : List.dropWhile isPySpace s.data = [] := by
      rw [List.dropWhile_eq_nil_iff]
      intro x hx
      exact List.all_eq_true.1 hs x hx
    simp [normalize_email, pyStrip, pyLower, String.toList, hdrop]
  · have hp := List.find?_some hu
    simpa [normalize_email] using beq_iff_eq.1 hp

/-- Witness for C10: a whitespace-only input fails immediately, and a
padded mixed-case email resolves to the user whose stored email is its
normalization. -/
theorem send_request_email_normalization_witness :
    send_friend_request exStore2 1 (some "  \t ") = (exStore2, false, "Podaj email.") ∧
    (⟨2, "Basia", "basia@example.com"⟩ : UserRow).email =
      pyLower (pyStrip ((some "  Basia@Example.COM " : Option String).getD "")) :=
  ⟨(send_request_email_normalization exStore2 1 (some "  \t ")).1 (by decide),
   (send_request_email_normalization exStore2 1 (some "  Basia@Example.COM ")).2.2.2
      ⟨2, "Basia", "basia@example.com"⟩ (by decide)⟩

end SweatCheck

namespace SweatCheck

/-- C7: `delete_notification` removes rows only when they belong to the
acting user, and the failure answer is one fixed `(false, message)` pair,
identical whether the row id does not exist at all or the row belongs to
a different user. -/
theorem delete_notification_owner_only (st1 st2 : Store) (u nid1 nid2 : Nat)
    (h1 : ∀ n ∈ st1.notifications, n.id ≠ nid1)
    (h2 : ∀ n ∈ st2.notifications, n.id = nid2 → n.user_id ≠ u) :
    delete_notification st1 u nid1 = (st1, false, "Nie znaleziono powiadomienia.") ∧
    delete_notification st2 u nid2 = (st2, false, "Nie znaleziono powiadomienia.") ∧
    (delete_notification st1 u nid1).2 = (delete_notification st2 u nid2).2 ∧
    (∀ st : Store, ∀ u0 nid : Nat, ∀ n ∈ st.notifications,
        n ∉ (delete_notification st u0 nid).1.notifications →
        n.id = nid ∧ n.user_id = u0) := by
  have e1 : delete_notification st1 u nid1 =
      (st1, false, "Nie znaleziono powiadomienia.") := by
    have hcond : st1.notifications.any
        (fun n => n.id == nid1 && n.user_id == u) = false := by
      rw [List.any_eq_false]
      intro n hn
      simp [h1 n hn]
    simp [delete_notification, hcond]
  have e2 : delete_notification st2 u nid2 =
      (st2, false, "Nie znaleziono powiadomienia.") := by
    have hcond : st2.notifications.any
        (fun n => n.id == nid2 && n.user_id == u) = false := by
      rw [List.any_eq_false]
      intro n hn
      by_cases hid : n.id = nid2
      · simp [hid, h2 n hn hid]
      · simp [hid]
    simp [delete_notification, hcond]
  refine ⟨e1, e2, by rw [e1, e2], fun st u0 nid n hn hnot => ?_⟩
  unfold delete_notification at hnot
  by_cases hc : st.notifications.any (fun n => n.id == nid && n.user_id == u0) = true
  · rw [if_pos hc] at hnot
    simp only [List.mem_filter] at hnot
    have := fun hk => hnot ⟨hn, hk⟩
    by_cases hm : n.id = nid ∧ n.user_id = u0
    · exact hm
    · exfalso
      apply this
      simp only [Bool.not_eq_true']
      rw [Bool.and_eq_false_iff]
      rcases Decidable.not_and_iff_or_not.1 hm with h | h
      · exact Or.inl (by simpa using h)
      · exact Or.inr (by simpa using h)
  · rw [if_neg hc] at hnot
    exact absurd hn hnot

/-- Witness for C7 on a concrete store: deleting a missing id and
deleting another user's notification produce the same failure pair. -/
theorem delete_notification_owner_only_witness :
    delete_notification exStoreDel 1 9 =
      (exStoreDel, false, "Nie znaleziono powiadomienia.") ∧
    delete_notification exStoreDel 1 7 =
      (exStoreDel, false, "Nie znaleziono powiadomienia.") ∧
    (delete_notification exStoreDel 1 9).2 = (delete_notification exStoreDel 1 7).2 :=
  ⟨(delete_notification_owner_only exStoreDel exStoreDel 1 9 7 (by decide) (by decide)).1,
   (delete_notification_owner_only exStoreDel exStoreDel 1 9 7 (by decide) (by decide)).2.1,
   (delete_notification_owner_only exStoreDel exStoreDel 1 9 7 (by decide) (by decide)).2.2.1⟩

/-- C8 counterexample: on a store where user 1 has exactly one unread
notification, `mark_all_notifications_read` returns `None` (the Python
function has no return statement), not the affected-row count 1 the claim
announces. -/
theorem mark_all_read_no_count_counterexample :
    (mark_all_notifications_read exStoreMark 1).2 = none ∧
    unread_notifications_count exStoreMark 1 = 1 ∧
    (mark_all_notifications_read exStoreMark 1).2 ≠
      some (unread_notifications_count exStoreMark 1) := by decide

/-- C8 amended: `mark_all_read(user_id)` sets `is_read := true` for
exactly the caller's unread rows — every other row (other users' rows and
already-read rows) is returned unchanged, no row is added or removed, the
other tables are untouched, and afterwards the caller has zero unread
rows — but it returns `None`, not the number of rows affected. -/
theorem mark_all_read_updates_exactly_unread (st : Store) (u : Nat) :
    (mark_all_notifications_read st u).2 = none ∧
    ((mark_all_notifications_read st u).1.users = st.users ∧
      (mark_all_notifications_read st u).1.friends = st.friends ∧
      (mark_all_notifications_read st u).1.friend_requests = st.friend_requests) ∧
    (mark_all_notifications_read st u).1.notifications.length =
      st.notifications.length ∧
    (∀ i (hi : i < st.notifications.length)
        (hi2 : i < (mark_all_notifications_read st u).1.notifications.length),
      ((st.notifications.get ⟨i, hi⟩).user_id = u ∧
          (st.notifications.get ⟨i, hi⟩).is_read = false →
        (mark_all_notifications_read st u).1.notifications.get ⟨i, hi2⟩ =
          { st.notifications.get ⟨i, hi⟩ with is_read := true }) ∧
      (¬((st.notifications.get ⟨i, hi⟩).user_id = u ∧
          (st.notifications.get ⟨i, hi⟩).is_read = false) →
        (mark_all_notifications_read st u).1.notifications.get ⟨i, hi2⟩ =
          st.notifications.get ⟨i, hi⟩)) ∧
    unread_notifications_count (mark_all_notifications_read st u).1 u = 0 := by
  refine ⟨rfl, ⟨rfl, rfl, rfl⟩, by simp [mark_all_notifications_read], ?_, ?_⟩
  · intro i hi hi2
    constructor
    · rintro ⟨hu, hr⟩
      simp only [List.get_eq_getElem] at hu hr
      simp [mark_all_notifications_read, List.get_eq_getElem, List.getElem_map, hu, hr]
    · intro hnot
      simp only [List.get_eq_getElem] at hnot
      simp only [mark_all_notifications_read, List.get_eq_getElem, List.getElem_map]
      rw [if_neg]
      simp only [Bool.and_eq_true, beq_iff_eq, Bool.not_eq_true', Bool.not_eq_true]
      intro hk
      exact hnot ⟨hk.1, hk.2⟩
  · have : (mark_all_notifications_read st u).1.notifications.filter
        (fun n => n.user_id == u && !n.is_read) = [] := by
      rw [List.filter_eq_nil_iff]
      intro n hn
      simp only [mark_all_notifications_read] at hn
      rcases List.mem_map.1 hn with ⟨m, _, rfl⟩
      by_cases hc : m.user_id == u && !m.is_read
      · simp [hc]
      · rw [if_neg (by simpa using hc)]
        simpa using hc
    simp [unread_notifications_count, this]

/-- Witness for C8's amended theorem on the concrete three-row store:
row 0 (user 1, unread) flips to read, row 1 (user 1, already read) and
row 2 (user 2) are unchanged. -/
theorem mark_all_read_updates_exactly_unread_witness :
    (mark_all_notifications_read exStoreMark 1).1.notifications.get
        ⟨0, by decide⟩ =
      { (exStoreMark.notifications.get ⟨0, by decide⟩ :
          NotificationRow) with is_read := true } ∧
    (mark_all_notifications_read exStoreMark 1).1.notifications.get
        ⟨2, by decide⟩ = exStoreMark.notifications.get ⟨2, by decide⟩ :=
  ⟨((mark_all_read_updates_exactly_unread exStoreMark 1).2.2.2.1 0 (by decide)
      (by decide)).1 (by decide),
   ((mark_all_read_updates_exactly_unread exStoreMark 1).2.2.2.1 2 (by decide)
      (by decide)).2 (by decide)⟩

end SweatCheck


namespace SweatCheck

lemma set_request_status_friends (st : Store) (rid : Nat) (s : String) :
    (set_request_status st rid s).friends = st.friends := rfl

lemma set_request_status_notifications (st : Store) (rid : Nat) (s : String) :
    (set_request_status st rid s).notifications = st.notifications := rfl

lemma set_request_status_next_notification_id (st : Store) (rid : Nat) (s : String) :
    (set_request_status st rid s).next_notification_id = st.next_notification_id := rfl

lemma set_request_status_now (st : Store) (rid : Nat) (s : String) :
    (set_request_status st rid s).now = st.now := rfl

lemma set_request_status_users (st : Store) (rid : Nat) (s : String) :
    (set_request_status st rid s).users = st.users := rfl

lemma insert_notification_friends (st : Store) (uid : Nat) (ty : String) (pl : Payload) :
    (insert_notification st uid ty pl).friends = st.friends := rfl

lemma insert_notification_requests (st : Store) (uid : Nat) (ty : String) (pl : Payload) :
    (insert_notification st uid ty pl).friend_requests = st.friend_requests := rfl

lemma insert_notification_users (st : Store) (uid : Nat) (ty : String) (pl : Payload) :
    (insert_notification st uid ty pl).users = st.users := rfl

lemma insert_notification_notifications (st : Store) (uid : Nat) (ty : String)
    (pl : Payload) :
    (insert_notification st uid ty pl).notifications =
      st.notifications ++ [⟨st.next_notification_id, uid, ty, pl, false, some st.now⟩] :=
  rfl

lemma lookup_request_insert_notification (st : Store) (uid : Nat) (ty : String)
    (pl : Payload) (rid : Nat) :
    lookup_request (insert_notification st uid ty pl) rid = lookup_request st rid := rfl

/-- Two stores with the same `friends` table agree on `friends_row_exists`. -/
lemma friends_row_exists_congr {st1 st2 : Store} (h : st1.friends = st2.friends)
    (x y : Nat) : friends_row_exists st1 x y = friends_row_exists st2 x y := by
  simp [friends_row_exists, h]

/-- Two stores with the same `friend_requests` table agree on `lookup_request`. -/
lemma lookup_request_congr {st1 st2 : Store}
    (h : st1.friend_requests = st2.friend_requests) (rid : Nat) :
    lookup_request st1 rid = lookup_request st2 rid := by
  simp [lookup_request, h]

/-- The conditional friendship insert makes its own pair present. -/
lemma friends_row_exists_insert_self (st : Store) (a b : Nat) :
    friends_row_exists (insert_friend_if_absent st a b) a b = true := by
  unfold insert_friend_if_absent
  by_cases h : friends_row_exists st a b = true
  · rw [if_pos h]; exact h
  · rw [if_neg h]
    simp [friends_row_exists, List.any_append]

/-- The conditional friendship insert preserves pairs already present. -/
lemma friends_row_exists_insert_mono (st : Store) (a b x y : Nat)
    (h : friends_row_exists st x y = true) :
    friends_row_exists (insert_friend_if_absent st a b) x y = true := by
  unfold insert_friend_if_absent
  by_cases hc : friends_row_exists st a b = true
  · rw [if_pos hc]; exact h
  · rw [if_neg hc]
    unfold friends_row_exists at h ⊢
    simp only [List.any_append, Bool.or_eq_true]
    exact Or.inl h

/-- After updating the rows with a given id, `find?` by that id returns
the updated version of what it returned before. -/
lemma find_update_by_id (l : List FriendRequestRow) (rid : Nat) (s : String)
    (t : Option Nat) (req : FriendRequestRow)
    (h : l.find? (fun r => r.id == rid) = some req) :
    (l.map (fun q => if q.id == rid then
        { q with status := s, responded_at := t } else q)).find?
        (fun r => r.id == rid) =
      some { req with status := s, responded_at := t } := by
  induction l with
  | nil => simp at h
  | cons a l ih =>
    cases ha : (a.id == rid) with
    | true =>
      have ha2 : a.id = rid := by simpa using ha
      simp only [List.find?_cons, ha] at h
      injection h with h
      subst h
      simp [List.find?_cons, ha, ha2]
    | false =>
      simp only [List.find?_cons, ha] at h
      rw [List.map_cons, if_neg (by simp [ha]), List.find?_cons, ha]
      exact ih h

/-- Updating a request row's status via `set_request_status` is visible
through `lookup_request`. -/
lemma lookup_request_set_status (st : Store) (rid : Nat) (s : String)
    (req : FriendRequestRow) (h : lookup_request st rid = some req) :
    lookup_request (set_request_status st rid s) rid =
      some { req with status := s, responded_at := some st.now } := by
  unfold lookup_request set_request_status at *
  exact find_update_by_id _ _ _ _ _ h

/-- C1: accepting a pending request addressed to the acting user
succeeds; afterwards the request row has status `accepted` with
`responded_at` set, both friendship directions exist so `are_friends`
holds both ways, and the notification log grows by exactly one
`friend_accept` row for the requester with payload
`{by_user_id := addressee}`. -/
theorem accept_request_success (st : Store) (u rid : Nat) (req : FriendRequestRow)
    (hfind : lookup_request st rid = some req)
    (haddr : req.addressee_id = u)
    (hstatus : req.status = "pending") :
    (accept_request st u rid).2 = (true, "Zaproszenie zaakceptowane.") ∧
    lookup_request (accept_request st u rid).1 rid =
      some { req with status := "accepted", responded_at := some st.now } ∧
    are_friends (accept_request st u rid).1 u req.requester_id = true ∧
    are_friends (accept_request st u rid).1 req.requester_id u = true ∧
    (accept_request st u rid).1.notifications =
      st.notifications ++
        [⟨st.next_notification_id, req.requester_id, "friend_accept",
          { by_user_id := some u }, false, some st.now⟩] := by
  have hacc := accept_request_success_eq st u rid req hfind haddr hstatus
  set stB := insert_friend_if_absent (insert_friend_if_absent st u req.requester_id)
      req.requester_id u with hB
  set stC := set_request_status stB rid "accepted" with hC
  set stD := insert_notification stC req.requester_id "friend_accept"
      { by_user_id := some u } with hD
  have hBfr : stB.friend_requests = st.friend_requests := by
    rw [hB, insert_friend_if_absent_requests, insert_friend_if_absent_requests]
  have hBnow : stB.now = st.now := by
    rw [hB, insert_friend_if_absent_now, insert_friend_if_absent_now]
  have hBnotif : stB.notifications = st.notifications := by
    rw [hB, insert_friend_if_absent_notifications, insert_friend_if_absent_notifications]
  have hBnid : stB.next_notification_id = st.next_notification_id := by
    rw [hB, insert_friend_if_absent_next_notification_id,
      insert_friend_if_absent_next_notification_id]
  have hDfriends : stD.friends = stB.friends := by
    rw [hD, insert_notification_friends, hC, set_request_status_friends]
  have hfst : (accept_request st u rid).1 = stD := by rw [hacc]
  refine ⟨by rw [hacc], ?_, ?_, ?_, ?_⟩
  · rw [hfst, hD, lookup_request_insert_notification, hC]
    have hlookB : lookup_request stB rid = some req := by
      rw [lookup_request_congr hBfr]; exact hfind
    rw [lookup_request_set_status stB rid "accepted" req hlookB, hBnow]
  · rw [are_friends, hfst, friends_row_exists_congr hDfriends]
    exact friends_row_exists_insert_mono _ _ _ _ _
      (friends_row_exists_insert_self st u req.requester_id)
  · rw [are_friends, hfst, friends_row_exists_congr hDfriends]
    exact friends_row_exists_insert_self _ _ _
  · rw [hfst, hD, insert_notification_notifications, hC, set_request_status_notifications,
      set_request_status_next_notification_id, set_request_status_now, hBnotif, hBnid,
      hBnow]

/-- Witness for C1 on the concrete pending request from user 1 to user 2,
accepted by user 2. -/
theorem accept_request_success_witness :
    (accept_request exStorePending 2 5).2 = (true, "Zaproszenie zaakceptowane.") ∧
    lookup_request (accept_request exStorePending 2 5).1 5 =
      some ⟨5, 1, 2, "accepted", 50, some 100⟩ ∧
    are_friends (accept_request exStorePending 2 5).1 2 1 = true ∧
    are_friends (accept_request exStorePending 2 5).1 1 2 = true ∧
    (accept_request exStorePending 2 5).1.notifications =
      [⟨1, 1, "friend_accept", { by_user_id := some 2 }, false, some 100⟩] := by
  have h := accept_request_success exStorePending 2 5 ⟨5, 1, 2, "pending", 50, none⟩
    (by decide) (by decide) (by decide)
  simpa using h

end SweatCheck

namespace SweatCheck

/-- C5: `accept` as one unit of work.  With a fault injected between the
relationship/status mutations and the `friend_accept` notification
insert, the committed store is always the initial store — neither the
friendship rows, nor the status update, nor the notification survive —
and, when the request was pending and addressed to the acting user (so
the mutation path is actually reached), the exception propagates instead
of a result.  Without a fault, the transactional form commits exactly
`accept_request`'s store and result. -/
theorem accept_fault_injection_rolls_back (st : Store) (u rid : Nat) :
    (accept_request_tx st u rid true).1 = st ∧
    (∀ req, lookup_request st rid = some req → req.addressee_id = u →
        req.status = "pending" → (accept_request_tx st u rid true).2 = none) ∧
    accept_request_tx st u rid false =
      ((accept_request st u rid).1,
        some ((accept_request st u rid).2.1, (accept_request st u rid).2.2)) := by
  refine ⟨?_, fun req h ha hs => ?_, ?_⟩
  · unfold accept_request_tx run_session accept_request_body
    cases h : lookup_request st rid with
    | none => rfl
    | some req =>
      by_cases ha : (req.addressee_id != u) = true
      · simp [ha]
      · by_cases hs : (req.status != "pending") = true
        · simp [ha, hs]
        · simp [ha, hs]
  · unfold accept_request_tx run_session accept_request_body
    simp [h, ha, hs]
  · unfold accept_request_tx run_session accept_request_body accept_request
    cases h : lookup_request st rid with
    | none => rfl
    | some req =>
      by_cases ha : (req.addressee_id != u) = true
      · simp [ha]
      · by_cases hs : (req.status != "pending") = true
        · simp [ha, hs]
        · simp [ha, hs]

/-- Witness for C5: on the concrete pending request, the faulted accept
leaves the store untouched and propagates the exception. -/
theorem accept_fault_injection_rolls_back_witness :
    (accept_request_tx exStorePending 2 5 true).1 = exStorePending ∧
    (accept_request_tx exStorePending 2 5 true).2 = none :=
  ⟨(accept_fault_injection_rolls_back exStorePending 2 5).1,
   (accept_fault_injection_rolls_back exStorePending 2 5).2.1
     ⟨5, 1, 2, "pending", 50, none⟩ (by decide) (by decide) (by decide)⟩

end SweatCheck

namespace SweatCheck

lemma upsert_pending_request_requests_absent (st : Store) (r a : Nat)
    (h : request_pair_exists st r a = false) :
    (upsert_pending_request st r a).friend_requests =
      st.friend_requests ++ [⟨st.next_request_id, r, a, "pending", st.now, none⟩] := by
  unfold upsert_pending_request
  rw [if_neg (by simp [h])]

lemma upsert_pending_request_requests_present (st : Store) (r a : Nat)
    (h : request_pair_exists st r a = true) :
    (upsert_pending_request st r a).friend_requests =
      st.friend_requests.map (fun q =>
        if q.requester_id == r && q.addressee_id == a then
          { q with status := "pending", created_at := st.now, responded_at := none }
        else q) := by
  unfold upsert_pending_request
  rw [if_pos h]

/-- Mapping a function that does not change a predicate's value does not
change the number of rows satisfying it. -/
lemma filter_length_map_invariant (l : List FriendRequestRow)
    (p : FriendRequestRow → Bool) (f : FriendRequestRow → FriendRequestRow)
    (hf : ∀ q, p (f q) = p q) :
    ((l.map f).filter p).length = (l.filter p).length := by
  induction l with
  | nil => rfl
  | cons a l ih =>
    simp only [List.map_cons, List.filter_cons, hf a]
    cases p a <;> simp [ih]

/-- When no existing row satisfies the predicate, `find?` on the list
with one row appended returns the appended row if it matches. -/
lemma find_append_right (p : FriendRequestRow → Bool) (l : List FriendRequestRow)
    (x : FriendRequestRow) (hl : ∀ q ∈ l, p q = false) (hx : p x = true) :
    (l ++ [x]).find? p = some x := by
  induction l with
  | nil => simp [List.find?_cons, hx]
  | cons a l ih =>
    rw [List.cons_append, List.find?_cons, hl a (by simp)]
    exact ih (fun q hq => hl q (by simp [hq]))

/-- A store with no row for the pair has an empty pair filter. -/
lemma pair_filter_nil (st : Store) (r a : Nat)
    (h : request_pair_exists st r a = false) :
    st.friend_requests.filter
      (fun q => q.requester_id == r && q.addressee_id == a) = [] := by
  rw [List.filter_eq_nil_iff]
  intro q hq hcontra
  have ht : request_pair_exists st r a = true := by
    unfold request_pair_exists
    rw [List.any_eq_true]
    exact ⟨q, hq, hcontra⟩
  rw [ht] at h
  exact absurd h (by decide)

/-- After an upsert that took the conflict branch, every row of the pair
is pending with `responded_at` cleared and `created_at` reset to the
upsert's timestamp. -/
lemma pair_rows_pending_after_upsert (st : Store) (r a : Nat)
    (h : request_pair_exists st r a = true) :
    ∀ q ∈ (upsert_pending_request st r a).friend_requests,
      q.requester_id = r → q.addressee_id = a →
      q.status = "pending" ∧ q.responded_at = none ∧ q.created_at = st.now := by
  rw [upsert_pending_request_requests_present st r a h]
  intro q hq
  rcases List.mem_map.1 hq with ⟨q0, hq0, rfl⟩
  by_cases hc : (q0.requester_id == r && q0.addressee_id == a) = true
  · intro hr ha
    simp [hc]
  · rw [if_neg hc]
    intro hr ha
    exact absurd (by simp [hr, ha]) hc

/-- The status update of decline/accept does not change which pair a row
belongs to. -/
lemma pair_pred_stable_under_status_update (rid : Nat) (s : String) (t : Option Nat)
    (r a : Nat) (q : FriendRequestRow) :
    ((fun q => q.requester_id == r && q.addressee_id == a)
        (if q.id == rid then { q with status := s, responded_at := t } else q)) =
      ((fun q => q.requester_id == r && q.addressee_id == a) q) := by
  by_cases h : (q.id == rid) = true
  · rw [if_pos h]
  · rw [if_neg h]

/-- `send_friend_request` either leaves `friend_requests` unchanged (one
of the guard-chain failures) or replaces it by the upsert's table. -/
lemma send_friend_request_requests_cases (st : Store) (r : Nat) (e : Option String) :
    (send_friend_request st r e).1.friend_requests = st.friend_requests ∨
    ∃ aid, (send_friend_request st r e).1.friend_requests =
      (upsert_pending_request st r aid).friend_requests := by
  by_cases h0 : normalize_email e = ""
  · left; simp [send_friend_request, h0]
  · cases hb : lookup_user_by_email st (normalize_email e) with
    | none => left; simp [send_friend_request, h0, hb]
    | some addr =>
      by_cases h1 : addr.id = r
      · left; simp [send_friend_request, h0, hb, h1]
      · by_cases h2 : friends_row_exists st r addr.id = true
        · left; simp [send_friend_request, h0, hb, h1, h2]
        · right
          refine ⟨addr.id, ?_⟩
          simp [send_friend_request, h0, hb, h1, h2, insert_notification_requests]

/-- One `send_friend_request` preserves "at most one row per ordered
pair" for every pair. -/
lemma send_preserves_pair_uniqueness (st : Store) (r : Nat) (e : Option String)
    (r0 a0 : Nat)
    (h : (st.friend_requests.filter
        (fun q => q.requester_id == r0 && q.addressee_id == a0)).length ≤ 1) :
    ((send_friend_request st r e).1.friend_requests.filter
        (fun q => q.requester_id == r0 && q.addressee_id == a0)).length ≤ 1 := by
  rcases send_friend_request_requests_cases st r e with hsame | ⟨aid, hup⟩
  · rw [hsame]; exact h
  · rw [hup]
    by_cases hp : request_pair_exists st r aid = true
    · rw [upsert_pending_request_requests_present st r aid hp]
      rw [filter_length_map_invariant]
      · exact h
      · intro q
        by_cases hc : (q.requester_id == r && q.addressee_id == aid) = true
        · rw [if_pos hc]
        · rw [if_neg hc]
    · rw [upsert_pending_request_requests_absent st r aid (by simpa using hp)]
      rw [List.filter_append, List.length_append]
      by_cases hnew : ((⟨st.next_request_id, r, aid, "pending", st.now, none⟩ :
          FriendRequestRow).requester_id == r0 &&
          (⟨st.next_request_id, r, aid, "pending", st.now, none⟩ :
          FriendRequestRow).addressee_id == a0) = true
      · have hr0 : r = r0 ∧ aid = a0 := by simpa using hnew
        have hfilnil : st.friend_requests.filter
            (fun q => q.requester_id == r0 && q.addressee_id == a0) = [] := by
          rcases hr0 with ⟨h1, h2⟩
          subst h1; subst h2
          exact pair_filter_nil st r aid (by simpa using hp)
        rw [hfilnil]
        simp [List.filter, hnew]
      · simpa [List.filter, hnew] using h

end SweatCheck

namespace SweatCheck

lemma insert_notification_now (st : Store) (uid : Nat) (ty : String) (pl : Payload) :
    (insert_notification st uid ty pl).now = st.now := rfl

lemma set_request_status_requests (st : Store) (rid : Nat) (s : String) :
    (set_request_status st rid s).friend_requests =
      st.friend_requests.map (fun q => if q.id == rid then
        { q with status := s, responded_at := some st.now } else q) := rfl

/-- Two stores with the same `users` table agree on email resolution. -/
lemma lookup_user_congr {st1 st2 : Store} (h : st1.users = st2.users) (e : String) :
    lookup_user_by_email st1 e = lookup_user_by_email st2 e := by
  simp [lookup_user_by_email, h]

/-- C3: at most one FriendRequest row exists per ordered pair (every
`send_request` preserves that bound for every pair), and the sequence
`send_request` → `decline` → `send_request` on a pair with no prior row
succeeds at each step and leaves exactly one row for the pair, back in
status `pending` with `responded_at` cleared and `created_at` reset by the
second upsert — not a second row. -/
theorem resend_after_decline_single_row (st : Store) (a : Nat) (e : Option String)
    (b : UserRow)
    (hne : normalize_email e ≠ "")
    (hb : lookup_user_by_email st (normalize_email e) = some b)
    (hself : b.id ≠ a)
    (hfr : friends_row_exists st a b.id = false)
    (hnopair : request_pair_exists st a b.id = false)
    (hfresh : ∀ q ∈ st.friend_requests, q.id ≠ st.next_request_id) :
    (∀ (st0 : Store) (r r0 a0 : Nat) (e0 : Option String),
        (st0.friend_requests.filter
          (fun q => q.requester_id == r0 && q.addressee_id == a0)).length ≤ 1 →
        ((send_friend_request st0 r e0).1.friend_requests.filter
          (fun q => q.requester_id == r0 && q.addressee_id == a0)).length ≤ 1) ∧
    (send_friend_request st a e).2.1 = true ∧
    (decline_request (send_friend_request st a e).1 b.id st.next_request_id).2.1 =
      true ∧
    (send_friend_request (decline_request (send_friend_request st a e).1 b.id
        st.next_request_id).1 a e).2.1 = true ∧
    ((send_friend_request (decline_request (send_friend_request st a e).1 b.id
        st.next_request_id).1 a e).1.friend_requests.filter
      (fun q => q.requester_id == a && q.addressee_id == b.id)).length = 1 ∧
    (∀ q ∈ (send_friend_request (decline_request (send_friend_request st a e).1 b.id
        st.next_request_id).1 a e).1.friend_requests,
      q.requester_id = a → q.addressee_id = b.id →
      q.status = "pending" ∧ q.responded_at = none ∧ q.created_at = st.now) := by
  have hsend1 := send_friend_request_success st a e b hne hb hself hfr
  have hs1fr : (send_friend_request st a e).1.friend_requests =
      st.friend_requests ++ [⟨st.next_request_id, a, b.id, "pending", st.now, none⟩] := by
    simp only [hsend1]
    rw [insert_notification_requests,
      upsert_pending_request_requests_absent st a b.id hnopair]
  have hs1users : (send_friend_request st a e).1.users = st.users := by
    simp only [hsend1]
    rw [insert_notification_users, upsert_pending_request_users]
  have hs1friends : (send_friend_request st a e).1.friends = st.friends := by
    simp only [hsend1]
    rw [insert_notification_friends, upsert_pending_request_friends]
  have hs1now : (send_friend_request st a e).1.now = st.now := by
    simp only [hsend1]
    rw [insert_notification_now, upsert_pending_request_now]
  have hlook1 : lookup_request (send_friend_request st a e).1 st.next_request_id =
      some ⟨st.next_request_id, a, b.id, "pending", st.now, none⟩ := by
    unfold lookup_request
    rw [hs1fr]
    apply find_append_right
    · intro q hq
      simp [hfresh q hq]
    · simp
  have hdecl := decline_request_success_eq (send_friend_request st a e).1 b.id
    st.next_request_id ⟨st.next_request_id, a, b.id, "pending", st.now, none⟩
    hlook1 rfl rfl
  have hs2fr : (decline_request (send_friend_request st a e).1 b.id
        st.next_request_id).1.friend_requests =
      (st.friend_requests ++
          [(⟨st.next_request_id, a, b.id, "pending", st.now, none⟩ :
            FriendRequestRow)]).map
        (fun q : FriendRequestRow => if q.id == st.next_request_id then
          { q with status := "declined", responded_at := some st.now } else q) := by
    simp only [hdecl]
    rw [insert_notification_requests, set_request_status_requests, hs1fr, hs1now]
  have hs2users : (decline_request (send_friend_request st a e).1 b.id
      st.next_request_id).1.users = st.users := by
    simp only [hdecl]
    rw [insert_notification_users, set_request_status_users, hs1users]
  have hs2friends : (decline_request (send_friend_request st a e).1 b.id
      st.next_request_id).1.friends = st.friends := by
    simp only [hdecl]
    rw [insert_notification_friends, set_request_status_friends, hs1friends]
  have hs2now : (decline_request (send_friend_request st a e).1 b.id
      st.next_request_id).1.now = st.now := by
    simp only [hdecl]
    rw [insert_notification_now, set_request_status_now, hs1now]
  have hb2 : lookup_user_by_email (decline_request (send_friend_request st a e).1 b.id
      st.next_request_id).1 (normalize_email e) = some b := by
    rw [lookup_user_congr hs2users]
    exact hb
  have hfr2 : friends_row_exists (decline_request (send_friend_request st a e).1 b.id
      st.next_request_id).1 a b.id = false := by
    rw [friends_row_exists_congr hs2friends]
    exact hfr
  have hpair2 : request_pair_exists (decline_request (send_friend_request st a e).1 b.id
      st.next_request_id).1 a b.id = true := by
    unfold request_pair_exists
    rw [hs2fr, List.any_eq_true]
    refine ⟨(fun q : FriendRequestRow => if q.id == st.next_request_id then
        { q with status := "declined", responded_at := some st.now } else q)
        ⟨st.next_request_id, a, b.id, "pending", st.now, none⟩,
      List.mem_map.2 ⟨_, by simp, rfl⟩, by simp⟩
  have hsend2 := send_friend_request_success
    (decline_request (send_friend_request st a e).1 b.id st.next_request_id).1
    a e b hne hb2 hself hfr2
  have hs3fr : (send_friend_request (decline_request (send_friend_request st a e).1
        b.id st.next_request_id).1 a e).1.friend_requests =
      (upsert_pending_request (decline_request (send_friend_request st a e).1 b.id
        st.next_request_id).1 a b.id).friend_requests := by
    simp only [hsend2]
    rw [insert_notification_requests]
  refine ⟨fun st0 r r0 a0 e0 h0 =>
      send_preserves_pair_uniqueness st0 r e0 r0 a0 h0,
    by simp [hsend1], by simp [hdecl], by simp [hsend2], ?_, ?_⟩
  · rw [hs3fr, upsert_pending_request_requests_present _ a b.id hpair2,
      filter_length_map_invariant]
    · rw [hs2fr, filter_length_map_invariant]
      · rw [List.filter_append, pair_filter_nil st a b.id hnopair]
        simp
      · intro q
        by_cases hc : (q.id == st.next_request_id) = true
        · rw [if_pos hc]
        · rw [if_neg hc]
    · intro q
      by_cases hc : (q.requester_id == a && q.addressee_id == b.id) = true
      · rw [if_pos hc]
      · rw [if_neg hc]
  · intro q hq hr ha
    rw [hs3fr] at hq
    have hrow := pair_rows_pending_after_upsert _ a b.id hpair2 q hq hr ha
    exact ⟨hrow.1, hrow.2.1, hrow.2.2.trans hs2now⟩

/-- Witness for C3: the concrete resend-after-decline run on the
two-user store ends with exactly one pair row, pending and cleared. -/
theorem resend_after_decline_single_row_witness :
    ((send_friend_request (decline_request (send_friend_request exStore2 1
          (some "basia@example.com")).1 2 1).1 1
        (some "basia@example.com")).1.friend_requests.filter
      (fun q => q.requester_id == 1 && q.addressee_id == 2)).length = 1 ∧
    ((⟨1, 1, 2, "pending", 100, none⟩ : FriendRequestRow).status = "pending" ∧
      (⟨1, 1, 2, "pending", 100, none⟩ : FriendRequestRow).responded_at = none ∧
      (⟨1, 1, 2, "pending", 100, none⟩ : FriendRequestRow).created_at = exStore2.now) := by
  have h := resend_after_decline_single_row exStore2 1 (some "basia@example.com")
    ⟨2, "Basia", "basia@example.com"⟩ (by decide) (by decide) (by decide) (by decide)
    (by decide) (by decide)
  exact ⟨h.2.2.2.2.1, h.2.2.2.2.2 ⟨1, 1, 2, "pending", 100, none⟩ (by decide)
    (by decide) (by decide)⟩

end SweatCheck

namespace SweatCheck

lemma ts_ge_total (a b : Option Nat) : ts_ge a b = true ∨ ts_ge b a = true := by
  cases a <;> cases b <;> simp [ts_ge]
  omega

lemma ts_ge_trans {a b c : Option Nat} (h1 : ts_ge a b = true)
    (h2 : ts_ge b c = true) : ts_ge a c = true := by
  cases a <;> cases b <;> cases c <;> simp [ts_ge] at *
  all_goals omega

lemma mem_insert_desc {x n : NotificationRow} {l : List NotificationRow}
    (h : x ∈ insert_desc n l) : x = n ∨ x ∈ l := by
  induction l with
  | nil => simpa [insert_desc] using h
  | cons m rest ih =>
    unfold insert_desc at h
    by_cases hc : ts_ge n.created_at m.created_at = true
    · rw [if_pos hc] at h
      rcases List.mem_cons.1 h with h | h
      · exact Or.inl h
      · exact Or.inr h
    · rw [if_neg hc] at h
      rcases List.mem_cons.1 h with h | h
      · exact Or.inr (h ▸ List.mem_cons_self m rest)
      · rcases ih h with h | h
        · exact Or.inl h
        · exact Or.inr (List.mem_cons_of_mem m h)

lemma sorted_insert_desc (n : NotificationRow) (l : List NotificationRow)
    (hl : l.Pairwise (fun x y => ts_ge x.created_at y.created_at = true)) :
    (insert_desc n l).Pairwise
      (fun x y => ts_ge x.created_at y.created_at = true) := by
  induction l with
  | nil => simp [insert_desc]
  | cons m rest ih =>
    unfold insert_desc
    by_cases hc : ts_ge n.created_at m.created_at = true
    · rw [if_pos hc]
      refine List.Pairwise.cons ?_ hl
      intro y hy
      rcases List.mem_cons.1 hy with rfl | hy
      · exact hc
      · exact ts_ge_trans hc ((List.pairwise_cons.1 hl).1 y hy)
    · rw [if_neg hc]
      have hnm : ts_ge m.created_at n.created_at = true := by
        rcases ts_ge_total n.created_at m.created_at with h | h
        · exact absurd h hc
        · exact h
      rcases List.pairwise_cons.1 hl with ⟨hm, hrest⟩
      refine List.Pairwise.cons ?_ (ih hrest)
      intro y hy
      rcases mem_insert_desc hy with rfl | hy
      · exact hnm
      · exact hm y hy

lemma sorted_sort_desc (l : List NotificationRow) :
    (sort_desc l).Pairwise (fun x y => ts_ge x.created_at y.created_at = true) := by
  induction l with
  | nil => simp [sort_desc]
  | cons n rest ih => exact sorted_insert_desc n (sort_desc rest) ih

lemma render_one_id (st : Store) (n : NotificationRow) :
    (render_one st n).id = n.id := by
  unfold render_one
  split_ifs <;> rfl

lemma render_one_is_read (st : Store) (n : NotificationRow) :
    (render_one st n).is_read = n.is_read := by
  unfold render_one
  split_ifs <;> rfl

lemma render_one_type (st : Store) (n : NotificationRow) :
    (render_one st n).type = n.type := by
  unfold render_one
  split_ifs <;> rfl

lemma render_one_created_at (st : Store) (n : NotificationRow) :
    (render_one st n).created_at = n.created_at := by
  unfold render_one
  split_ifs <;> rfl

lemma render_one_friend_request_fallback (st : Store) (n : NotificationRow)
    (ht : n.type = "friend_request")
    (hl : truthy_lookup st n.payload.from_user_id = none) :
    (render_one st n).message = some "Nowe zaproszenie" := by
  unfold render_one
  rw [if_pos (by simp [ht])]
  simp [hl]

lemma render_one_friend_accept_fallback (st : Store) (n : NotificationRow)
    (ht : n.type = "friend_accept")
    (hl : truthy_lookup st n.payload.by_user_id = none) :
    (render_one st n).message = some "Ktoś zaakceptował(a) Twoje zaproszenie" := by
  unfold render_one
  rw [ht, if_neg (by decide), if_pos (by decide)]
  simp [hl]

lemma render_one_friend_decline_fallback (st : Store) (n : NotificationRow)
    (ht : n.type = "friend_decline")
    (hl : truthy_lookup st n.payload.by_user_id = none) :
    (render_one st n).message = some "Ktoś odrzucił(a) Twoje zaproszenie" := by
  unfold render_one
  rw [ht, if_neg (by decide), if_neg (by decide), if_pos (by decide)]
  simp [hl]

lemma render_one_unknown (st : Store) (n : NotificationRow)
    (h1 : n.type ≠ "friend_request") (h2 : n.type ≠ "friend_accept")
    (h3 : n.type ≠ "friend_decline") (h4 : n.type ≠ "admin_broadcast") :
    (render_one st n).message = some "Nieznany typ powiadomienia" ∧
    (render_one st n).user_friendly_type = none ∧
    (render_one st n).user_friendly_created_at = none := by
  unfold render_one
  rw [if_neg (by simp [h1]), if_neg (by simp [h2]), if_neg (by simp [h3]),
    if_neg (by simp [h4])]
  exact ⟨rfl, rfl, rfl⟩

lemma parse_notifications_get (st : Store) (u : Nat) (i : Nat)
    (h1 : i < (parse_notifications st u).length)
    (h2 : i < (list_notifications st u 30).length) :
    (parse_notifications st u).get ⟨i, h1⟩ =
      render_one st ((list_notifications st u 30).get ⟨i, h2⟩) := by
  simp [parse_notifications, List.get_eq_getElem, List.getElem_map]

end SweatCheck

namespace SweatCheck

/-- C6: the presenter renders exactly one record per fetched row, in the
fetched order (which is descending by `created_at`), copying `id`,
`is_read`, `type` and `created_at` unchanged; a `friend_request` row
whose referenced user does not resolve gets the generic fallback message,
a `friend_accept` or `friend_decline` row whose referenced user does not
resolve gets the corresponding generic fallback message, and a row of
unknown type gets the generic placeholder message instead of being
dropped.  The function is total, so it never raises. -/
theorem parse_notifications_renders_each_row (st : Store) (u : Nat) :
    (parse_notifications st u).length = (list_notifications st u 30).length ∧
    (list_notifications st u 30).Pairwise
      (fun x y => ts_ge x.created_at y.created_at = true) ∧
    (∀ i (h1 : i < (parse_notifications st u).length)
        (h2 : i < (list_notifications st u 30).length),
      ((parse_notifications st u).get ⟨i, h1⟩).id =
          ((list_notifications st u 30).get ⟨i, h2⟩).id ∧
        ((parse_notifications st u).get ⟨i, h1⟩).is_read =
          ((list_notifications st u 30).get ⟨i, h2⟩).is_read ∧
        ((parse_notifications st u).get ⟨i, h1⟩).type =
          ((list_notifications st u 30).get ⟨i, h2⟩).type ∧
        ((parse_notifications st u).get ⟨i, h1⟩).created_at =
          ((list_notifications st u 30).get ⟨i, h2⟩).created_at) ∧
    (∀ i (h1 : i < (parse_notifications st u).length)
        (h2 : i < (list_notifications st u 30).length),
      ((list_notifications st u 30).get ⟨i, h2⟩).type = "friend_request" →
      truthy_lookup st
          ((list_notifications st u 30).get ⟨i, h2⟩).payload.from_user_id = none →
      ((parse_notifications st u).get ⟨i, h1⟩).message = some "Nowe zaproszenie") ∧
    (∀ i (h1 : i < (parse_notifications st u).length)
        (h2 : i < (list_notifications st u 30).length),
      ((list_notifications st u 30).get ⟨i, h2⟩).type = "friend_accept" →
      truthy_lookup st
          ((list_notifications st u 30).get ⟨i, h2⟩).payload.by_user_id = none →
      ((parse_notifications st u).get ⟨i, h1⟩).message =
        some "Ktoś zaakceptował(a) Twoje zaproszenie") ∧
    (∀ i (h1 : i < (parse_notifications st u).length)
        (h2 : i < (list_notifications st u 30).length),
      ((list_notifications st u 30).get ⟨i, h2⟩).type = "friend_decline" →
      truthy_lookup st
          ((list_notifications st u 30).get ⟨i, h2⟩).payload.by_user_id = none →
      ((parse_notifications st u).get ⟨i, h1⟩).message =
        some "Ktoś odrzucił(a) Twoje zaproszenie") ∧
    (∀ i (h1 : i < (parse_notifications st u).length)
        (h2 : i < (list_notifications st u 30).length),
      ((list_notifications st u 30).get ⟨i, h2⟩).type ≠ "friend_request" →
      ((list_notifications st u 30).get ⟨i, h2⟩).type ≠ "friend_accept" →
      ((list_notifications st u 30).get ⟨i, h2⟩).type ≠ "friend_decline" →
      ((list_notifications st u 30).get ⟨i, h2⟩).type ≠ "admin_broadcast" →
      ((parse_notifications st u).get ⟨i, h1⟩).message =
        some "Nieznany typ powiadomienia") := by
  refine ⟨by simp [parse_notifications], ?_, ?_, ?_, ?_, ?_, ?_⟩
  · unfold list_notifications
    exact (sorted_sort_desc _).sublist (List.take_sublist _ _)
  · intro i h1 h2
    rw [parse_notifications_get st u i h1 h2]
    exact ⟨render_one_id _ _, render_one_is_read _ _, render_one_type _ _,
      render_one_created_at _ _⟩
  · intro i h1 h2 ht hl
    rw [parse_notifications_get st u i h1 h2]
    exact render_one_friend_request_fallback st _ ht hl
  · intro i h1 h2 ht hl
    rw [parse_notifications_get st u i h1 h2]
    exact render_one_friend_accept_fallback st _ ht hl
  · intro i h1 h2 ht hl
    rw [parse_notifications_get st u i h1 h2]
    exact render_one_friend_decline_fallback st _ ht hl
  · intro i h1 h2 hy1 hy2 hy3 hy4
    rw [parse_notifications_get st u i h1 h2]
    exact (render_one_unknown st _ hy1 hy2 hy3 hy4).1

/-- Witness for C6 on concrete stores: the dangling `friend_request`
row renders with its fallback message and keeps its `id`, the dangling
`friend_accept` and `friend_decline` rows render with their fallback
messages, and the unknown-type row renders with the placeholder. -/
theorem parse_notifications_renders_each_row_witness :
    (parse_notifications exStoreRender 1).length =
      (list_notifications exStoreRender 1 30).length ∧
    ((parse_notifications exStoreRender 1).get ⟨0, by decide⟩).id =
      ((list_notifications exStoreRender 1 30).get ⟨0, by decide⟩).id ∧
    ((parse_notifications exStoreRender 1).get ⟨0, by decide⟩).message =
      some "Nowe zaproszenie" ∧
    ((parse_notifications exStoreRender2 1).get ⟨1, by decide⟩).message =
      some "Ktoś zaakceptował(a) Twoje zaproszenie" ∧
    ((parse_notifications exStoreRender2 1).get ⟨0, by decide⟩).message =
      some "Ktoś odrzucił(a) Twoje zaproszenie" ∧
    ((parse_notifications exStoreRender 1).get ⟨1, by decide⟩).message =
      some "Nieznany typ powiadomienia" := by
  have h := parse_notifications_renders_each_row exStoreRender 1
  have h2 := parse_notifications_renders_each_row exStoreRender2 1
  exact ⟨h.1,
    (h.2.2.1 0 (by decide) (by decide)).1,
    h.2.2.2.1 0 (by decide) (by decide) (by decide) (by decide),
    h2.2.2.2.2.1 1 (by decide) (by decide) (by decide) (by decide),
    h2.2.2.2.2.2.1 0 (by decide) (by decide) (by decide) (by decide),
    h.2.2.2.2.2.2 1 (by decide) (by decide) (by decide) (by decide) (by decide)
      (by decide)⟩

/-- C9 counterexample: rendering a store whose only notification has the
unknown type `workout_like` yields a record with no
`user_friendly_type` label and no `user_friendly_created_at` timestamp
string — only the placeholder message — refuting the claim that every
rendered record carries both. -/
theorem render_unknown_missing_label_counterexample :
    (parse_notifications exStoreUnknown 1).map (fun p => p.user_friendly_type) =
      [none] ∧
    (parse_notifications exStoreUnknown 1).map
      (fun p => p.user_friendly_created_at) = [none] ∧
    (parse_notifications exStoreUnknown 1).map (fun p => p.message) =
      [some "Nieznany typ powiadomienia"] := by decide

/-- C9 amended: records of the four known types (`friend_request`,
`friend_accept`, `friend_decline`, `admin_broadcast`) carry a
human-readable type label and a formatted timestamp string in addition
to the message; records of any other type carry only the placeholder
message — the presenter's final `else` branch attaches neither label nor
timestamp. -/
theorem render_known_types_have_label_and_timestamp (st : Store)
    (n : NotificationRow) :
    (n.type = "friend_request" ∨ n.type = "friend_accept" ∨
        n.type = "friend_decline" ∨ n.type = "admin_broadcast" →
      (render_one st n).user_friendly_type.isSome = true ∧
      (render_one st n).user_friendly_created_at.isSome = true) ∧
    (n.type ≠ "friend_request" → n.type ≠ "friend_accept" →
        n.type ≠ "friend_decline" → n.type ≠ "admin_broadcast" →
      (render_one st n).message = some "Nieznany typ powiadomienia" ∧
      (render_one st n).user_friendly_type = none ∧
      (render_one st n).user_friendly_created_at = none) := by
  constructor
  · intro h
    unfold render_one
    rcases h with ht | ht | ht | ht <;> rw [ht]
    · rw [if_pos (by decide)]
      exact ⟨rfl, rfl⟩
    · rw [if_neg (by decide), if_pos (by decide)]
      exact ⟨rfl, rfl⟩
    · rw [if_neg (by decide), if_neg (by decide), if_pos (by decide)]
      exact ⟨rfl, rfl⟩
    · rw [if_neg (by decide), if_neg (by decide), if_neg (by decide),
        if_pos (by decide)]
      exact ⟨rfl, rfl⟩
  · exact render_one_unknown st n

/-- Witness for C9's amended theorem: the dangling `friend_request` row
gets both label and timestamp; the `workout_like` row gets neither. -/
theorem render_known_types_have_label_and_timestamp_witness :
    ((render_one exStoreRender
        ⟨2, 1, "friend_request", { from_user_id := some 99 }, false,
          some 30⟩).user_friendly_type.isSome = true ∧
      (render_one exStoreRender
        ⟨2, 1, "friend_request", { from_user_id := some 99 }, false,
          some 30⟩).user_friendly_created_at.isSome = true) ∧
    ((render_one exStoreRender
        ⟨1, 1, "workout_like", {}, false, some 20⟩).message =
        some "Nieznany typ powiadomienia" ∧
      (render_one exStoreRender
        ⟨1, 1, "workout_like", {}, false, some 20⟩).user_friendly_type = none ∧
      (render_one exStoreRender
        ⟨1, 1, "workout_like", {}, false, some 20⟩).user_friendly_created_at =
        none) :=
  ⟨(render_known_types_have_label_and_timestamp exStoreRender
      ⟨2, 1, "friend_request", { from_user_id := some 99 }, false, some 30⟩).1
      (Or.inl rfl),
   (render_known_types_have_label_and_timestamp exStoreRender
      ⟨1, 1, "workout_like", {}, false, some 20⟩).2
      (by decide) (by decide) (by decide) (by decide)⟩

end SweatCheck
